import Mathlib

/-!
Verification of the Project-Pheonix frontend orchestration client
(frontend/lib/api-client.ts, the Dashboard page, frontend/components/task-form.tsx,
the AgentCard component) and of the orchestration-core behaviours that the
specification describes (TaskOrchestrator state machine, ComplianceGate scoring).

JavaScript records are embedded as a small JSON value type; JSON.stringify
semantics (properties whose value is undefined are dropped) are modelled by
building the field list explicitly from Option-typed inputs.
-/

namespace Mothership

/-- A JSON value, as produced by JSON.stringify and consumed by response.json(). -/
inductive Json where
| null : Json
| bool : Bool → Json
| num : ℚ → Json
| str : String → Json
| arr : List Json → Json
| obj : List (String × Json) → Json

/-- The keys of a JSON object, in serialization order. -/
def Json.keys : Json → List String
| .obj fields => fields.map Prod.fst
| _ => []

/-- JavaScript truthiness of a JSON value (false, 0, empty string and null are falsy). -/
def Json.truthy : Json → Bool
| .null => false
| .bool b => b
| .num q => decide (q ≠ 0)
| .str s => decide (s ≠ "")
| .arr _ => true
| .obj _ => true

/-- An HTTP response as seen by fetch: a status code and a parsed JSON body. -/
structure HttpResponse where
  status : Nat
  body : Json

/-- fetch sets response.ok exactly when the status is in the range 200..299. -/
def HttpResponse.ok (r : HttpResponse) : Bool :=
  decide (200 ≤ r.status) && decide (r.status ≤ 299)

/-- The error thrown by ApiClient.request on a non-ok response
(new Error with the HTTP status). -/
inductive ApiError where
| httpError : Nat → ApiError
deriving DecidableEq, Repr

/-- An HTTP request issued by the client: method, path and optional JSON body. -/
structure ApiRequest where
  method : String
  path : String
  body : Option Json

namespace ApiClient

/-- ApiClient.request (api-client.ts lines 23..49): if the response is not ok
it throws an Error carrying the HTTP status; otherwise it returns the parsed
JSON body. The catch clause only logs and rethrows, so the outcome is exactly
this Except value. -/
def request (resp : HttpResponse) : Except ApiError Json :=
  if resp.ok then Except.ok resp.body else Except.error (ApiError.httpError resp.status)

/-- The CreateTask payload. Modelled from the spec: the schemas module is not
under src/; the field list follows the REST contract
POST /api/tasks with user_id optional, agent_id, directive_id, input_data,
matching the call site in Dashboard.handleTaskSubmit. -/
structure CreateTask where
  user_id : Option String
  agent_id : String
  directive_id : String
  input_data : Json

/-- JSON.stringify of a CreateTask record: an absent (undefined) user_id
property is dropped from the serialized object. -/
def CreateTask.toJson (t : CreateTask) : Json :=
  Json.obj
    ((match t.user_id with
      | some u => [("user_id", Json.str u)]
      | none => []) ++
     [("agent_id", Json.str t.agent_id),
      ("directive_id", Json.str t.directive_id),
      ("input_data", t.input_data)])

/-- ApiClient.createTask (api-client.ts lines 74..79): the request it issues. -/
def createTaskRequest (t : CreateTask) : ApiRequest :=
  { method := "POST", path := "/api/tasks", body := some t.toJson }

/-- ApiClient.createTask returns the result of request on the response,
unchanged (the parsed body is returned as the created Task). -/
def createTask (_t : CreateTask) (resp : HttpResponse) : Except ApiError Json :=
  request resp

/-- The body built by ApiClient.createDirective (api-client.ts lines 86..99):
JSON.stringify of an object literal whose user_context property is the
optional argument; when the argument is omitted the property value is
undefined and JSON.stringify drops the key. -/
def createDirectiveBody (taskDescription taskType : String) (userContext : Option Json) : Json :=
  Json.obj
    ([("task_description", Json.str taskDescription),
      ("task_type", Json.str taskType)] ++
     (match userContext with
      | some u => [("user_context", u)]
      | none => []))

/-- ApiClient.createDirective: the request it issues. -/
def createDirectiveRequest (taskDescription taskType : String)
    (userContext : Option Json) : ApiRequest :=
  { method := "POST", path := "/api/directives",
    body := some (createDirectiveBody taskDescription taskType userContext) }

/-- ApiClient.createDirective returns the result of request on the response,
unchanged (the parsed body is returned as the generated Directive). -/
def createDirective (_taskDescription _taskType : String) (_userContext : Option Json)
    (resp : HttpResponse) : Except ApiError Json :=
  request resp

end ApiClient

end Mothership

namespace Mothership

/-- C7: For every HTTP response, ApiClient.request returns the parsed JSON
body exactly when the response status is ok (in 200..299), and throws the
HTTP-status error for every non-ok status, 404 included; it never returns a
value for a failed response. -/
theorem ApiClient.request_ok_iff (resp : HttpResponse) :
    (∀ j : Json, ApiClient.request resp = Except.ok j ↔ (resp.ok = true ∧ j = resp.body)) ∧
    (resp.ok = false → ApiClient.request resp = Except.error (ApiError.httpError resp.status)) := by
  constructor
  · intro j
    unfold ApiClient.request
    by_cases h : resp.ok = true
    · simp [h, eq_comm]
    · simp [h]
  · intro h
    unfold ApiClient.request
    simp [h]

/-- Witness for C7: a 404 response (such as GET of an unknown agent id)
makes request throw the status-404 error. -/
theorem ApiClient.request_ok_iff_witness :
    ApiClient.request { status := 404, body := Json.null } =
      Except.error (ApiError.httpError 404) :=
  (ApiClient.request_ok_iff { status := 404, body := Json.null }).2 (by decide)

/-- C5: every task-creation call issues POST /api/tasks whose JSON body has
exactly the keys user_id (when provided), agent_id, directive_id and
input_data, and returns the parsed response body as the created Task on an
ok response. -/
theorem ApiClient.createTask_spec (t : ApiClient.CreateTask) :
    (ApiClient.createTaskRequest t).method = "POST" ∧
    (ApiClient.createTaskRequest t).path = "/api/tasks" ∧
    ((ApiClient.createTaskRequest t).body.map Json.keys) =
      some (match t.user_id with
            | some _ => ["user_id", "agent_id", "directive_id", "input_data"]
            | none => ["agent_id", "directive_id", "input_data"]) ∧
    (∀ resp : HttpResponse, resp.ok = true →
      ApiClient.createTask t resp = Except.ok resp.body) := by
  refine ⟨rfl, rfl, ?_, ?_⟩
  · cases h : t.user_id <;>
      simp [ApiClient.createTaskRequest, ApiClient.CreateTask.toJson, Json.keys, h]
  · intro resp hok
    simp [ApiClient.createTask, ApiClient.request, hok]

/-- Witness for C5: a concrete task payload without user_id yields the
three-key body. -/
theorem ApiClient.createTask_spec_witness :
    ((ApiClient.createTaskRequest
        { user_id := none, agent_id := "agent-1", directive_id := "dir-1",
          input_data := Json.obj [] }).body.map Json.keys) =
      some ["agent_id", "directive_id", "input_data"] :=
  (ApiClient.createTask_spec
    { user_id := none, agent_id := "agent-1", directive_id := "dir-1",
      input_data := Json.obj [] }).2.2.1

/-- C6: every directive-generation call issues POST /api/directives whose
JSON body always has the keys task_description and task_type, has the key
user_context exactly when the optional argument was provided, and returns
the parsed response body as the generated Directive on an ok response. -/
theorem ApiClient.createDirective_spec (taskDescription taskType : String)
    (userContext : Option Json) :
    (ApiClient.createDirectiveRequest taskDescription taskType userContext).method = "POST" ∧
    (ApiClient.createDirectiveRequest taskDescription taskType userContext).path =
      "/api/directives" ∧
    "task_description" ∈
      (ApiClient.createDirectiveBody taskDescription taskType userContext).keys ∧
    "task_type" ∈ (ApiClient.createDirectiveBody taskDescription taskType userContext).keys ∧
    ("user_context" ∈
        (ApiClient.createDirectiveBody taskDescription taskType userContext).keys ↔
      userContext.isSome = true) ∧
    (∀ resp : HttpResponse, resp.ok = true →
      ApiClient.createDirective taskDescription taskType userContext resp =
        Except.ok resp.body) := by
  refine ⟨rfl, rfl, ?_, ?_, ?_, ?_⟩
  · cases userContext <;> simp [ApiClient.createDirectiveBody, Json.keys]
  · cases userContext <;> simp [ApiClient.createDirectiveBody, Json.keys]
  · cases userContext <;> simp [ApiClient.createDirectiveBody, Json.keys]
  · intro resp hok
    simp [ApiClient.createDirective, ApiClient.request, hok]

/-- Witness for C6: with the argument omitted the body has no user_context
key; with it provided the key is present. -/
theorem ApiClient.createDirective_spec_witness :
    ("user_context" ∈ (ApiClient.createDirectiveBody "p" "math" none).keys ↔
      (none : Option Json).isSome = true) ∧
    ("user_context" ∈
        (ApiClient.createDirectiveBody "p" "math" (some (Json.obj []))).keys ↔
      (some (Json.obj [])).isSome = true) :=
  ⟨(ApiClient.createDirective_spec "p" "math" none).2.2.2.2.1,
   (ApiClient.createDirective_spec "p" "math" (some (Json.obj []))).2.2.2.2.1⟩

/-- The Agent record shape used by the Dashboard page (interface Agent). -/
structure Agent where
  id : String
  name : String
  agent_type : String
  capabilities : List (String × Json)
  status : String
  last_heartbeat : Option String
  created_at : String
  updated_at : String

/-- The Task record shape used by the Dashboard page (interface Task). -/
structure Task where
  id : String
  user_id : Option String
  agent_id : String
  directive_id : String
  input_data : Json
  output_data : Option Json
  status : String
  error_message : Option String
  created_at : String
  completed_at : Option String

/-- The Directive record shape used by the Dashboard page (interface Directive). -/
structure Directive where
  id : String
  task_type : String
  constraints : List (String × Json)
  source_values : List String
  source_beliefs : List String
  created_at : String
  expires_at : Option String

/-- The validated data of the task form: problem and type strings
(the type field of task-form.tsx, renamed because type is a Lean keyword). -/
structure TaskFormData where
  problem : String
  type_ : String
deriving DecidableEq, Repr

/-- The input_data sent by Dashboard.handleTaskSubmit is the taskData record
itself, serialized with its two properties. -/
def TaskFormData.toJson (d : TaskFormData) : Json :=
  Json.obj [("problem", Json.str d.problem), ("type", Json.str d.type_)]

/-- JavaScript String.prototype.trim: strip leading and trailing whitespace
(written over the character list so that it evaluates by reduction). -/
def jsTrim (s : String) : String :=
  String.mk (((s.data.dropWhile Char.isWhitespace).reverse.dropWhile
    Char.isWhitespace).reverse)

namespace Dashboard

/-- Dashboard: activeAgents = agents.filter(agent.status === active). -/
def activeAgents (agents : List Agent) : List Agent :=
  agents.filter (fun agent => agent.status == "active")

/-- Dashboard: completedTasks = recentTasks.filter(task.status === completed). -/
def completedTasks (recentTasks : List Task) : List Task :=
  recentTasks.filter (fun task => task.status == "completed")

/-- The agents prop the Dashboard passes to TaskForm is exactly activeAgents. -/
def taskFormAgents (agents : List Agent) : List Agent :=
  activeAgents agents

/-- JavaScript Math.round for the non-negative rationals arising here:
floor of the argument plus one half. -/
def jsRound (q : ℚ) : ℤ := ⌊q + 1 / 2⌋

/-- The success-rate figure rendered by the Dashboard:
recentTasks.length greater than zero selects
Math.round(completedTasks.length / recentTasks.length * 100), else 0. -/
def successRate (recentTasks : List Task) : ℤ :=
  if 0 < recentTasks.length then
    jsRound (((completedTasks recentTasks).length : ℚ) / (recentTasks.length : ℚ) * 100)
  else 0

/-- Dashboard.handleTaskSubmit as the list of API requests it issues, in
order. The guard returns early with no requests when no agent is selected or
the trimmed problem is empty. Directive generation is awaited first; its
outcome is the directiveResult argument. On failure the catch block stops the
flow, so only the directive request was issued; on success the task request
follows, built from the selected agent, the returned directive id and the
form data. -/
def handleTaskSubmit (selectedAgent : Option String) (taskData : TaskFormData)
    (directiveResult : Except ApiError Directive) : List ApiRequest :=
  match selectedAgent with
  | none => []
  | some agentId =>
    if jsTrim taskData.problem = "" then []
    else
      match directiveResult with
      | Except.error _ =>
          [ApiClient.createDirectiveRequest taskData.problem taskData.type_ none]
      | Except.ok directive =>
          [ApiClient.createDirectiveRequest taskData.problem taskData.type_ none,
           ApiClient.createTaskRequest
             { user_id := some "user-123", agent_id := agentId,
               directive_id := directive.id, input_data := taskData.toJson }]

end Dashboard

/-- C4: an agent is offered for selection in the task-submission form exactly
when it is among the fetched agents and its status equals active. -/
theorem Dashboard.taskFormAgents_mem (agents : List Agent) (a : Agent) :
    a ∈ Dashboard.taskFormAgents agents ↔ (a ∈ agents ∧ a.status = "active") := by
  simp [Dashboard.taskFormAgents, Dashboard.activeAgents, List.mem_filter]

/-- Witness for C4: a concrete active agent is offered, a concrete inactive
one is not. -/
theorem Dashboard.taskFormAgents_mem_witness :
    { id := "agent-1", name := "math-1", agent_type := "math", capabilities := [],
      status := "active", last_heartbeat := none, created_at := "t0",
      updated_at := "t0" : Agent } ∈
      Dashboard.taskFormAgents
        [{ id := "agent-1", name := "math-1", agent_type := "math", capabilities := [],
           status := "active", last_heartbeat := none, created_at := "t0",
           updated_at := "t0" : Agent }] :=
  (Dashboard.taskFormAgents_mem _ _).mpr ⟨by simp, rfl⟩

/-- C1: task submission is all-or-nothing. With an agent selected and a
nonblank problem, when directive generation fails the request trace is
exactly the directive request (no POST /api/tasks is ever issued, so no Task
is created), and when it succeeds the directive request precedes the single
task-creation request. -/
theorem Dashboard.handleTaskSubmit_allOrNothing (agentId : String)
    (taskData : TaskFormData) (directiveResult : Except ApiError Directive)
    (h : jsTrim taskData.problem ≠ "") :
    (∀ e, directiveResult = Except.error e →
        Dashboard.handleTaskSubmit (some agentId) taskData directiveResult =
          [ApiClient.createDirectiveRequest taskData.problem taskData.type_ none]) ∧
    (∀ d, directiveResult = Except.ok d →
        Dashboard.handleTaskSubmit (some agentId) taskData directiveResult =
          [ApiClient.createDirectiveRequest taskData.problem taskData.type_ none,
           ApiClient.createTaskRequest
             { user_id := some "user-123", agent_id := agentId,
               directive_id := d.id, input_data := taskData.toJson }]) := by
  constructor
  · rintro e rfl
    simp [Dashboard.handleTaskSubmit, h]
  · rintro d rfl
    simp [Dashboard.handleTaskSubmit, h]

/-- Witness for C1: a concrete failed directive generation leaves a trace
with no task-creation request. -/
theorem Dashboard.handleTaskSubmit_allOrNothing_witness :
    Dashboard.handleTaskSubmit (some "agent-1")
        { problem := "Solve 2x + 3 = 7", type_ := "math" }
        (Except.error (ApiError.httpError 500)) =
      [ApiClient.createDirectiveRequest "Solve 2x + 3 = 7" "math" none] :=
  (Dashboard.handleTaskSubmit_allOrNothing "agent-1"
      { problem := "Solve 2x + 3 = 7", type_ := "math" }
      (Except.error (ApiError.httpError 500)) (by decide)).1
    (ApiError.httpError 500) rfl

/-- C10: the success-rate computation never divides by zero: the empty
recent-task list yields 0, and a non-empty list yields the rounded
percentage of completed tasks, an integer between 0 and 100. -/
theorem Dashboard.successRate_bounds (recentTasks : List Task)
    (h : 0 < recentTasks.length) :
    Dashboard.successRate [] = 0 ∧
    0 ≤ Dashboard.successRate recentTasks ∧
    Dashboard.successRate recentTasks ≤ 100 ∧
    Dashboard.successRate recentTasks =
      Dashboard.jsRound
        (((Dashboard.completedTasks recentTasks).length : ℚ) /
          (recentTasks.length : ℚ) * 100) := by
  have hc : (Dashboard.completedTasks recentTasks).length ≤ recentTasks.length :=
    List.length_filter_le _ _
  have hn : (0 : ℚ) < (recentTasks.length : ℚ) := by exact_mod_cast h
  set q : ℚ := ((Dashboard.completedTasks recentTasks).length : ℚ) /
      (recentTasks.length : ℚ) * 100 with hq
  have hq0 : 0 ≤ q := by positivity
  have hq100 : q ≤ 100 := by
    have h1 : ((Dashboard.completedTasks recentTasks).length : ℚ) /
        (recentTasks.length : ℚ) ≤ 1 := by
      rw [div_le_one hn]
      exact_mod_cast hc
    have h2 := mul_le_mul_of_nonneg_right h1 (by norm_num : (0 : ℚ) ≤ 100)
    simpa [hq] using h2
  have hval : Dashboard.successRate recentTasks = Dashboard.jsRound q := by
    simp [Dashboard.successRate, h, hq]
  refine ⟨rfl, ?_, ?_, hval⟩
  · rw [hval]
    exact Int.le_floor.mpr (by push_cast; linarith)
  · rw [hval]
    have hlt : Dashboard.jsRound q < 101 := Int.floor_lt.mpr (by push_cast; linarith)
    omega

/-- Witness for C10: one completed and one failed recent task give a rate of
50, within bounds. -/
theorem Dashboard.successRate_bounds_witness :
    0 ≤ Dashboard.successRate
        [{ id := "t1", user_id := none, agent_id := "a", directive_id := "d",
           input_data := Json.null, output_data := none, status := "completed",
           error_message := none, created_at := "t0", completed_at := none },
         { id := "t2", user_id := none, agent_id := "a", directive_id := "d",
           input_data := Json.null, output_data := none, status := "failed",
           error_message := none, created_at := "t0", completed_at := none }] ∧
    Dashboard.successRate
        [{ id := "t1", user_id := none, agent_id := "a", directive_id := "d",
           input_data := Json.null, output_data := none, status := "completed",
           error_message := none, created_at := "t0", completed_at := none },
         { id := "t2", user_id := none, agent_id := "a", directive_id := "d",
           input_data := Json.null, output_data := none, status := "failed",
           error_message := none, created_at := "t0", completed_at := none }] ≤ 100 :=
  ⟨(Dashboard.successRate_bounds _ (by simp)).2.1,
   (Dashboard.successRate_bounds _ (by simp)).2.2.1⟩

namespace TaskForm

/-- taskFormSchema (task-form.tsx lines 17..20): a zod object requiring the
problem and type strings to have minimum length 1. zodResolver makes
handleSubmit invoke the inner handler only when parsing succeeds, passing the
parsed data through unchanged. -/
def taskFormSchemaParse (raw : TaskFormData) : Option TaskFormData :=
  if 1 ≤ raw.problem.length ∧ 1 ≤ raw.type_.length then some raw else none

/-- handleFormSubmit (task-form.tsx lines 45..59): returns early when no
agent is selected, otherwise calls onSubmit with the validated data. The
result is the data passed to onSubmit, or none when onSubmit is not called. -/
def handleFormSubmit (selectedAgent : Option String) (data : TaskFormData) :
    Option TaskFormData :=
  match selectedAgent with
  | none => none
  | some _ => some data

/-- The form submission pipeline handleSubmit(handleFormSubmit): zod
validation first, then the selected-agent guard; the result is some d
exactly when onSubmit is invoked with d. -/
def submitPipeline (selectedAgent : Option String) (raw : TaskFormData) :
    Option TaskFormData :=
  match taskFormSchemaParse raw with
  | none => none
  | some data => handleFormSubmit selectedAgent data

end TaskForm

/-- C8: the task form never submits invalid input: whenever the pipeline
invokes onSubmit with data d, an agent was selected and both the problem and
type strings have length at least 1 (hence are non-empty). -/
theorem TaskForm.submitPipeline_valid (selectedAgent : Option String)
    (raw d : TaskFormData)
    (h : TaskForm.submitPipeline selectedAgent raw = some d) :
    selectedAgent.isSome = true ∧ 1 ≤ d.problem.length ∧ 1 ≤ d.type_.length ∧
    d.problem ≠ "" ∧ d.type_ ≠ "" := by
  unfold TaskForm.submitPipeline TaskForm.taskFormSchemaParse
    TaskForm.handleFormSubmit at h
  by_cases hv : 1 ≤ raw.problem.length ∧ 1 ≤ raw.type_.length
  · rw [if_pos hv] at h
    cases selectedAgent with
    | none => simp at h
    | some a =>
      simp only [Option.some.injEq] at h
      subst h
      refine ⟨rfl, hv.1, hv.2, ?_, ?_⟩
      · intro he
        rw [he] at hv
        simp at hv
      · intro he
        rw [he] at hv
        simp at hv
  · rw [if_neg hv] at h
    simp at h

/-- Witness for C8: a concrete valid submission with a selected agent goes
through and its fields have the required length. -/
theorem TaskForm.submitPipeline_valid_witness :
    (some "agent-1" : Option String).isSome = true ∧
    1 ≤ (TaskFormData.mk "Solve 2x + 3 = 7" "math").problem.length ∧
    1 ≤ (TaskFormData.mk "Solve 2x + 3 = 7" "math").type_.length :=
  ⟨(TaskForm.submitPipeline_valid (some "agent-1")
      (TaskFormData.mk "Solve 2x + 3 = 7" "math")
      (TaskFormData.mk "Solve 2x + 3 = 7" "math") (by decide)).1,
   (TaskForm.submitPipeline_valid (some "agent-1")
      (TaskFormData.mk "Solve 2x + 3 = 7" "math")
      (TaskFormData.mk "Solve 2x + 3 = 7" "math") (by decide)).2.1,
   (TaskForm.submitPipeline_valid (some "agent-1")
      (TaskFormData.mk "Solve 2x + 3 = 7" "math")
      (TaskFormData.mk "Solve 2x + 3 = 7" "math") (by decide)).2.2.1⟩

namespace AgentCard

/-- The lucide-react identifiers imported by the AgentCard module
(agent-card.tsx lines 6..15). Calculator is not among them. -/
def lucideImports : List String := ["Bot", "Activity", "CheckCircle", "XCircle",
  "Clock", "Zap", "Shield", "Brain"]

/-- A rendered icon element: the component identifier and its css class. -/
structure Icon where
  component : String
  className : String
deriving DecidableEq, Repr

/-- getStatusIcon: a switch over the status string with a default branch
(gray Clock icon) for unknown statuses. -/
def getStatusIcon (status : String) : Icon :=
  match status with
  | "active" => { component := "CheckCircle", className := "h-4 w-4 text-green-500" }
  | "inactive" => { component := "Clock", className := "h-4 w-4 text-gray-500" }
  | "error" => { component := "XCircle", className := "h-4 w-4 text-red-500" }
  | "maintenance" => { component := "Activity", className := "h-4 w-4 text-yellow-500" }
  | _ => { component := "Clock", className := "h-4 w-4 text-gray-500" }

/-- getStatusColor: a switch over the status string with a default branch
(gray) for unknown statuses. -/
def getStatusColor (status : String) : String :=
  match status with
  | "active" => "bg-green-500"
  | "inactive" => "bg-gray-500"
  | "error" => "bg-red-500"
  | "maintenance" => "bg-yellow-500"
  | _ => "bg-gray-500"

/-- formatLastHeartbeat, with Date values embedded as epoch milliseconds:
null maps to Never, otherwise the difference to now is bucketed into
just-now, minutes, hours and days (Math.floor is integer floor division). -/
def formatLastHeartbeat (heartbeat : Option Int) (now : Int) : String :=
  match heartbeat with
  | none => "Never"
  | some t =>
    let diffMs : Int := now - t
    let diffMins : Int := Int.fdiv diffMs (1000 * 60)
    if diffMins < 1 then "Just now"
    else if diffMins < 60 then toString diffMins ++ "m ago"
    else
      let diffHours : Int := Int.fdiv diffMins 60
      if diffHours < 24 then toString diffHours ++ "h ago"
      else toString (Int.fdiv diffHours 24) ++ "d ago"

/-- Evaluating a JSX component reference: a name missing from the list of
imported identifiers is unresolved, which throws a ReferenceError when
the element is rendered. -/
def refComponent (name : String) : Except String String :=
  if lucideImports.contains name then Except.ok name
  else Except.error ("ReferenceError: " ++ name ++ " is not defined")

/-- Truthiness of capabilities[key] (a missing property is undefined, falsy). -/
def capTruthy (capabilities : List (String × Json)) (key : String) : Bool :=
  match capabilities.lookup key with
  | some v => v.truthy
  | none => false

/-- getCapabilityIcons (agent-card.tsx lines 73..82): pushes one icon
component per truthy capability key, in source order; each branch references
the named component identifier. -/
def getCapabilityIcons (capabilities : List (String × Json)) :
    Except String (List String) := do
  let icons0 : List String := []
  let icons1 ←
    if capTruthy capabilities "algebra" then do
      let c ← refComponent "Calculator"
      pure (icons0 ++ [c])
    else pure icons0
  let icons2 ←
    if capTruthy capabilities "calculus" then do
      let c ← refComponent "Zap"
      pure (icons1 ++ [c])
    else pure icons1
  let icons3 ←
    if capTruthy capabilities "trigonometry" then do
      let c ← refComponent "Brain"
      pure (icons2 ++ [c])
    else pure icons2
  let icons4 ←
    if capTruthy capabilities "statistics" then do
      let c ← refComponent "Shield"
      pure (icons3 ++ [c])
    else pure icons3
  pure icons4

end AgentCard

namespace TaskOrchestrator

/-- The five Task statuses of the data model (the status union type of the
Dashboard Task interface). -/
inductive TaskStatus where
| pending
| in_progress
| completed
| failed
| cancelled
deriving DecidableEq, Repr, Fintype

/-- The status string stored for each TaskStatus. -/
def TaskStatus.statusString : TaskStatus → String
| TaskStatus.pending => "pending"
| TaskStatus.in_progress => "in_progress"
| TaskStatus.completed => "completed"
| TaskStatus.failed => "failed"
| TaskStatus.cancelled => "cancelled"

/-- The five admissible status strings. -/
def statusStrings : List String :=
  ["pending", "in_progress", "completed", "failed", "cancelled"]

/-- The three terminal statuses. -/
def TaskStatus.isTerminal : TaskStatus → Bool
| TaskStatus.completed => true
| TaskStatus.failed => true
| TaskStatus.cancelled => true
| _ => false

/-- The transition-triggering operations of the orchestrator; complete
carries whether the bound Directive has expired at that moment. -/
inductive TaskEvent where
| markInProgress
| complete (directiveExpired : Bool)
| fail
| cancel
deriving DecidableEq, Repr, Fintype

/-- The state-machine violation error. -/
inductive OrchestratorError where
| invalidTransition
deriving DecidableEq, Repr

instance {ε α : Type} [DecidableEq ε] [DecidableEq α] : DecidableEq (Except ε α) :=
fun a b =>
  match a, b with
  | Except.ok x, Except.ok y =>
    if h : x = y then isTrue (by rw [h]) else isFalse (by simp [h])
  | Except.error x, Except.error y =>
    if h : x = y then isTrue (by rw [h]) else isFalse (by simp [h])
  | Except.ok _, Except.error _ => isFalse (by simp)
  | Except.error _, Except.ok _ => isFalse (by simp)

/-- Modelled from the spec: the TaskOrchestrator state machine of section
4.5; the orchestrator implementation is not under src/, which holds only the
frontend. markInProgress moves pending to in_progress and fails with
InvalidTransition from any other state. complete is only valid from
in_progress and first checks the bound Directive expiry, transitioning to
failed instead when it lapsed. fail moves in_progress to failed. cancel is
valid from pending or in_progress. Duplicate complete, fail and cancel on an
already terminal Task are no-ops returning the existing terminal state. -/
def step : TaskStatus → TaskEvent → Except OrchestratorError TaskStatus
| TaskStatus.pending, TaskEvent.markInProgress => Except.ok TaskStatus.in_progress
| TaskStatus.in_progress, TaskEvent.complete directiveExpired =>
    Except.ok (if directiveExpired then TaskStatus.failed else TaskStatus.completed)
| TaskStatus.in_progress, TaskEvent.fail => Except.ok TaskStatus.failed
| TaskStatus.pending, TaskEvent.cancel => Except.ok TaskStatus.cancelled
| TaskStatus.in_progress, TaskEvent.cancel => Except.ok TaskStatus.cancelled
| s, TaskEvent.complete _ =>
    if s.isTerminal then Except.ok s else Except.error OrchestratorError.invalidTransition
| s, TaskEvent.fail =>
    if s.isTerminal then Except.ok s else Except.error OrchestratorError.invalidTransition
| s, TaskEvent.cancel =>
    if s.isTerminal then Except.ok s else Except.error OrchestratorError.invalidTransition
| _, TaskEvent.markInProgress => Except.error OrchestratorError.invalidTransition

/-- The status changes claimed by the path
pending to in_progress to one of completed, failed, cancelled. -/
def claimedEdges : List (TaskStatus × TaskStatus) :=
  [(TaskStatus.pending, TaskStatus.in_progress),
   (TaskStatus.in_progress, TaskStatus.completed),
   (TaskStatus.in_progress, TaskStatus.failed),
   (TaskStatus.in_progress, TaskStatus.cancelled)]

end TaskOrchestrator

/-- Counterexample for C2: cancel is valid from pending, so the machine
performs the status change pending to cancelled, which is not an edge of the
claimed path pending to in_progress to a terminal status. -/
theorem TaskOrchestrator.step_pending_cancel :
    TaskOrchestrator.step TaskOrchestrator.TaskStatus.pending
        TaskOrchestrator.TaskEvent.cancel =
      Except.ok TaskOrchestrator.TaskStatus.cancelled ∧
    (TaskOrchestrator.TaskStatus.pending, TaskOrchestrator.TaskStatus.cancelled) ∉
      TaskOrchestrator.claimedEdges := by
  decide

/-- C2 (amended): every status is one of the five admissible values; every
successful transition either leaves the status unchanged or follows an edge
of the path pending to in_progress to a terminal status, or cancels directly
from pending to cancelled; and once a Task is terminal no event changes its
status (re-applied terminal transitions are no-ops and markInProgress is
rejected). -/
theorem TaskOrchestrator.step_statuses (s s' : TaskOrchestrator.TaskStatus)
    (e : TaskOrchestrator.TaskEvent)
    (h : TaskOrchestrator.step s e = Except.ok s') :
    s.statusString ∈ TaskOrchestrator.statusStrings ∧
    s'.statusString ∈ TaskOrchestrator.statusStrings ∧
    (s' = s ∨ (s, s') ∈ TaskOrchestrator.claimedEdges ∨
      (s = TaskOrchestrator.TaskStatus.pending ∧
        s' = TaskOrchestrator.TaskStatus.cancelled)) ∧
    (s.isTerminal = true →
      s' = s ∧ e ≠ TaskOrchestrator.TaskEvent.markInProgress) :=
  (by decide :
    ∀ (s s' : TaskOrchestrator.TaskStatus) (e : TaskOrchestrator.TaskEvent),
      TaskOrchestrator.step s e = Except.ok s' →
      s.statusString ∈ TaskOrchestrator.statusStrings ∧
      s'.statusString ∈ TaskOrchestrator.statusStrings ∧
      (s' = s ∨ (s, s') ∈ TaskOrchestrator.claimedEdges ∨
        (s = TaskOrchestrator.TaskStatus.pending ∧
          s' = TaskOrchestrator.TaskStatus.cancelled)) ∧
      (s.isTerminal = true →
        s' = s ∧ e ≠ TaskOrchestrator.TaskEvent.markInProgress)) s s' e h

/-- Witness for the amended C2: completing an in_progress Task with an
unexpired Directive really performs a transition and lands on an admissible
status value. -/
theorem TaskOrchestrator.step_statuses_witness :
    TaskOrchestrator.TaskStatus.completed.statusString ∈
      TaskOrchestrator.statusStrings :=
  (TaskOrchestrator.step_statuses TaskOrchestrator.TaskStatus.in_progress
      TaskOrchestrator.TaskStatus.completed
      (TaskOrchestrator.TaskEvent.complete false) (by decide)).2.1

namespace ComplianceGate

/-- Modelled from the spec: the ComplianceGate score of section 4.4; the
gate implementation is not under src/, which holds only the frontend.
complianceScore = 1 minus (violated constraints over total constraints),
floored at 0. -/
def complianceScore (violated total : ℕ) : ℚ :=
  max 0 (1 - (violated : ℚ) / (total : ℚ))

/-- Modelled from the spec: the violated-constraint count of an evaluation,
for a constraint-kind-specific satisfaction test (an external
collaborator): each constraint of the Directive not satisfied by the output
records a violation. -/
def countViolations (satisfies : (String × Json) → Json → Bool)
    (constraints : List (String × Json)) (output : Json) : ℕ :=
  (constraints.filter (fun c => !(satisfies c output))).length

/-- Modelled from the spec: the complianceScore of evaluate(directive,
output), computed from the violated and total constraint counts. -/
def evaluateScore (satisfies : (String × Json) → Json → Bool)
    (directive : Directive) (output : Json) : ℚ :=
  complianceScore (countViolations satisfies directive.constraints output)
    directive.constraints.length

end ComplianceGate

/-- C3: for a fixed non-empty constraint set, the compliance score is 1 with
zero violations, 0 with all constraints violated, always lies between 0 and
1, is monotonically non-increasing in the number of violated constraints,
and every evaluation of an output scores its violated-constraint count,
which never exceeds the total. -/
theorem ComplianceGate.complianceScore_spec (total : ℕ) (h : 0 < total) :
    ComplianceGate.complianceScore 0 total = 1 ∧
    ComplianceGate.complianceScore total total = 0 ∧
    (∀ v : ℕ, 0 ≤ ComplianceGate.complianceScore v total ∧
      ComplianceGate.complianceScore v total ≤ 1) ∧
    (∀ v₁ v₂ : ℕ, v₁ ≤ v₂ →
      ComplianceGate.complianceScore v₂ total ≤
        ComplianceGate.complianceScore v₁ total) ∧
    (∀ (satisfies : (String × Json) → Json → Bool) (d : Directive) (output : Json),
      ComplianceGate.evaluateScore satisfies d output =
        ComplianceGate.complianceScore
          (ComplianceGate.countViolations satisfies d.constraints output)
          d.constraints.length ∧
      ComplianceGate.countViolations satisfies d.constraints output ≤
        d.constraints.length) := by
  have ht : ((total : ℚ)) ≠ 0 := by
    exact_mod_cast h.ne'
  have ht0 : (0 : ℚ) < (total : ℚ) := by exact_mod_cast h
  refine ⟨?_, ?_, ?_, ?_, ?_⟩
  · simp [ComplianceGate.complianceScore]
  · simp [ComplianceGate.complianceScore, div_self ht]
  · intro v
    constructor
    · exact le_max_left 0 _
    · refine max_le (by norm_num) ?_
      have hv : 0 ≤ (v : ℚ) / (total : ℚ) := by positivity
      linarith
  · intro v₁ v₂ hv
    have hd : (v₁ : ℚ) / (total : ℚ) ≤ (v₂ : ℚ) / (total : ℚ) := by
      gcongr
    exact max_le_max le_rfl (by linarith)
  · intro satisfies d output
    exact ⟨rfl, List.length_filter_le _ _⟩

/-- Witness for C3: with two constraints, zero violations score 1 and two
violations score 0. -/
theorem ComplianceGate.complianceScore_spec_witness :
    ComplianceGate.complianceScore 0 2 = 1 ∧
    ComplianceGate.complianceScore 2 2 = 0 :=
  ⟨(ComplianceGate.complianceScore_spec 2 (by decide)).1,
   (ComplianceGate.complianceScore_spec 2 (by decide)).2.1⟩

/-- C9: rendering an agent card is not total. The status and heartbeat
helpers are total (unknown statuses take the gray default, a null heartbeat
maps to Never), and the calculus, trigonometry and statistics branches of
getCapabilityIcons resolve to imported components; but agent-card.tsx
never imports Calculator, so a capabilities map with a truthy algebra key makes
getCapabilityIcons throw a ReferenceError instead of returning an icon
list. -/
theorem AgentCard.getCapabilityIcons_algebra_throws :
    AgentCard.getCapabilityIcons [("algebra", Json.bool true)] =
      Except.error "ReferenceError: Calculator is not defined" ∧
    AgentCard.getCapabilityIcons
        [("calculus", Json.bool true), ("trigonometry", Json.bool true),
         ("statistics", Json.bool true)] =
      Except.ok ["Zap", "Brain", "Shield"] ∧
    AgentCard.getStatusIcon "unknown-status" =
      { component := "Clock", className := "h-4 w-4 text-gray-500" } ∧
    AgentCard.getStatusColor "unknown-status" = "bg-gray-500" ∧
    AgentCard.formatLastHeartbeat none 0 = "Never" :=
  ⟨rfl, rfl, rfl, rfl, rfl⟩

end Mothership
